import Mathlib

/-!
Shallow embedding of `src/contracts/deploy.py` (medxrchain-starknet-base).

The script is a linear command-line procedure that declares, deploys and
smoke-tests a single Starknet contract through the starknet_py SDK.  We embed
it as pure Lean functions over an *environment* that supplies the outcome of
every external (SDK / filesystem) call: each awaited call either returns a
value or raises a Python exception.  Each procedure produces the ordered trace
of operations it performed (prints, file reads/writes, network calls) together
with its result (normal return value or a propagated exception), mirroring the
Python control flow statement by statement.
-/

/-- A Python exception, as far as this script can observe one. -/
inductive PyExc where
  | fileNotFound
  | indexError
  | jsonDecodeError
  | sdkError (msg : String)
deriving DecidableEq

/-- The text `str(e)` used when the top-level handler prints the exception. -/
def PyExc.msg : PyExc → String
  | .fileNotFound => "[Errno 2] No such file or directory"
  | .indexError => "list index out of range"
  | .jsonDecodeError => "Expecting value"
  | .sdkError m => m

/-- `starknet_py.net.client_models.Call`: one call of an invoke transaction.
The script passes `selector="constructor"` as a literal string. -/
structure Call where
  to_addr : Nat
  selector : String
  calldata : List Nat
deriving DecidableEq

/-- Result of `account.sign_declare_v2` (fields the script uses). -/
structure DeclareResult where
  transaction_hash : Nat
  class_hash : Nat
deriving DecidableEq

/-- Result of `account.sign_invoke_v1` / `invoke_v1` (field the script uses). -/
structure InvokeResult where
  transaction_hash : Nat
deriving DecidableEq

/-- An emitted event of a transaction receipt (field the script uses). -/
structure Event where
  from_address : Nat
deriving DecidableEq

/-- A transaction receipt (field the script uses). -/
structure Receipt where
  events : List Event
deriving DecidableEq

/-- The keyword arguments of the smoke-test call
`contract.functions["mint_medical_nft"].invoke_v1(...)` (fee aside). -/
structure MintArgs where
  patient_id : Nat
  scan_type : Nat
  ipfs_hash : Nat
  doctor : Nat
  upload_timestamp : Nat
  diagnosis_summary : Nat
  notes : Nat
deriving DecidableEq

/-- One observable operation the script performs, in program order. -/
inductive Op where
  | printLine (s : String)
  | fileRead (path : String)
  | fileWrite (path : String) (content : List (String × String))
  | declare (maxFee : Nat)
  | waitForTx (txHash : Nat)
  | invoke (calls : List Call) (maxFee : Nat)
  | getReceipt (txHash : Nat)
  | contractCall (fn : String) (args : List Nat)
  | contractInvoke (fn : String) (args : MintArgs) (maxFee : Nat)
deriving DecidableEq

/-- Configuration constant `TESTNET_RPC_URL`. -/
def TESTNET_RPC_URL : String := "https://starknet-sepolia.public.blastapi.io/rpc/v0_7"

/-- Configuration constant `CONTRACT_COMPILED_PATH`. -/
def CONTRACT_COMPILED_PATH : String := "medical_scan_nft_compiled.json"

/-- The placeholder value of `ACCOUNT_ADDRESS` as shipped. -/
def ACCOUNT_ADDRESS_PLACEHOLDER : String := "YOUR_ACCOUNT_ADDRESS_HERE"

/-- The placeholder value of `PRIVATE_KEY` as shipped. -/
def PRIVATE_KEY_PLACEHOLDER : String := "YOUR_PRIVATE_KEY_HERE"

/-- `int(1e16)`: the float 1e16 is exactly 10^16 (10^16 = 2^16 * 5^16 and
5^16 < 2^53), so the Python expression evaluates to exactly 10^16. -/
def MAX_FEE : Nat := 10 ^ 16

/-- Python `hex(n)` for a nonnegative int: `0x` followed by lowercase
hexadecimal digits. -/
def hexStr (n : Nat) : String := "0x" ++ String.mk (Nat.toDigits 16 n)

/-- The two editable configuration constants of the script
(`ACCOUNT_ADDRESS`, `PRIVATE_KEY`), hand-edited before running. -/
structure Config where
  account_address : String
  private_key : String
deriving DecidableEq

/-- Environment of one `deploy_contract()` run: the outcome of each external
call, in the order the script awaits them.  `accountAddress` is the integer
`account.address` the SDK parses from the configured address. -/
structure DeployEnv where
  accountAddress : Nat
  loadRes : Except PyExc Unit
  declareRes : Except PyExc DeclareResult
  waitDeclareRes : Except PyExc Unit
  invokeRes : Except PyExc InvokeResult
  waitDeployRes : Except PyExc Unit
  receiptRes : Except PyExc Receipt

/-- Outcome of `deploy_contract()`: its operation trace and either a normal
return (`none` for the bare `return`, `some addr` for `return
contract_address`) or a propagated exception. -/
structure DeployOut where
  ops : List Op
  result : Except PyExc (Option Nat)

/-- `deploy_contract()` of `src/contracts/deploy.py`, translated statement by
statement.  The `try`/`except FileNotFoundError` around the artifact `open`
catches only that exception; every other raise propagates. -/
def deploy_contract (env : DeployEnv) : DeployOut :=
  let ops0 : List Op :=
    [.printLine "🏥 Starting Medical NFT Contract Deployment...",
     .printLine ("📱 Using account: " ++ hexStr env.accountAddress)]
  match env.loadRes with
  | .error e =>
    match e with
    | .fileNotFound =>
      { ops := ops0 ++
          [.fileRead CONTRACT_COMPILED_PATH,
           .printLine ("❌ Contract file not found: " ++ CONTRACT_COMPILED_PATH),
           .printLine "Make sure you\x27ve compiled the contract with \x27scarb build\x27"],
        result := .ok none }
    | e => { ops := ops0 ++ [.fileRead CONTRACT_COMPILED_PATH], result := .error e }
  | .ok _ =>
    let ops1 := ops0 ++
      [.fileRead CONTRACT_COMPILED_PATH,
       .printLine "📄 Contract loaded successfully",
       .printLine "📤 Declaring contract..."]
    match env.declareRes with
    | .error e => { ops := ops1 ++ [.declare MAX_FEE], result := .error e }
    | .ok declare_result =>
      let ops2 := ops1 ++ [.declare MAX_FEE]
      match env.waitDeclareRes with
      | .error e =>
        { ops := ops2 ++ [.waitForTx declare_result.transaction_hash], result := .error e }
      | .ok _ =>
        let ops3 := ops2 ++
          [.waitForTx declare_result.transaction_hash,
           .printLine ("✅ Contract declared with class hash: " ++
             hexStr declare_result.class_hash),
           .printLine "🚀 Deploying contract..."]
        let calls : List Call :=
          [{ to_addr := declare_result.class_hash, selector := "constructor", calldata := [] }]
        match env.invokeRes with
        | .error e => { ops := ops3 ++ [.invoke calls MAX_FEE], result := .error e }
        | .ok deploy_result =>
          let ops4 := ops3 ++ [.invoke calls MAX_FEE]
          match env.waitDeployRes with
          | .error e =>
            { ops := ops4 ++ [.waitForTx deploy_result.transaction_hash], result := .error e }
          | .ok _ =>
            let ops5 := ops4 ++ [.waitForTx deploy_result.transaction_hash]
            match env.receiptRes with
            | .error e =>
              { ops := ops5 ++ [.getReceipt deploy_result.transaction_hash],
                result := .error e }
            | .ok receipt =>
              let ops6 := ops5 ++ [.getReceipt deploy_result.transaction_hash]
              match receipt.events with
              | [] => { ops := ops6, result := .error .indexError }
              | ev :: _ =>
                let contract_address := ev.from_address
                let deployment_info : List (String × String) :=
                  [("contract_address", hexStr contract_address),
                   ("class_hash", hexStr declare_result.class_hash),
                   ("transaction_hash", hexStr deploy_result.transaction_hash),
                   ("network", "starknet-sepolia")]
                { ops := ops6 ++
                    [.printLine "🎉 Contract deployed successfully!",
                     .printLine ("📍 Contract Address: " ++ hexStr contract_address),
                     .printLine ("🔗 Transaction Hash: " ++
                       hexStr deploy_result.transaction_hash),
                     .printLine ("🏷️  Class Hash: " ++ hexStr declare_result.class_hash),
                     .fileWrite "deployment_info.json" deployment_info,
                     .printLine "💾 Deployment info saved to deployment_info.json"],
                  result := .ok (some contract_address) }

/-- The hard-coded keyword arguments of the smoke-test mint. -/
def mintArgs : MintArgs :=
  { patient_id := 1234567890
    scan_type := 1
    ipfs_hash := 0x1234567890abcdef
    doctor := 0x9876543210fedcba
    upload_timestamp := 1640995200
    diagnosis_summary := 0xabcdef1234567890
    notes := 0xfedcba0987654321 }

/-- Environment of one `test_contract(...)` run: the outcome of each external
call, in the order the script awaits them.  `loadRes` covers the (uncaught)
artifact `open`/`json.load`/ABI access; `metadataRes` carries the printed
representation of the returned metadata object. -/
structure TestEnv where
  loadRes : Except PyExc Unit
  supply1Res : Except PyExc Nat
  mintRes : Except PyExc InvokeResult
  waitMintRes : Except PyExc Unit
  supply2Res : Except PyExc Nat
  metadataRes : Except PyExc String

/-- Outcome of `test_contract(...)`: its operation trace and either a normal
return or a propagated exception. -/
structure TestOut where
  ops : List Op
  result : Except PyExc Unit

/-- `test_contract(contract_address)` of `src/contracts/deploy.py`, translated
statement by statement.  Nothing here is wrapped in a `try`. -/
def test_contract (env : TestEnv) : TestOut :=
  let ops0 : List Op := [.printLine "\n🧪 Testing deployed contract..."]
  match env.loadRes with
  | .error e => { ops := ops0 ++ [.fileRead CONTRACT_COMPILED_PATH], result := .error e }
  | .ok _ =>
    let ops1 := ops0 ++ [.fileRead CONTRACT_COMPILED_PATH]
    match env.supply1Res with
    | .error e => { ops := ops1 ++ [.contractCall "get_total_supply" []], result := .error e }
    | .ok total_supply =>
      let ops2 := ops1 ++
        [.contractCall "get_total_supply" [],
         .printLine ("📊 Total Supply: " ++ toString total_supply),
         .printLine "🏥 Minting test medical NFT..."]
      match env.mintRes with
      | .error e =>
        { ops := ops2 ++ [.contractInvoke "mint_medical_nft" mintArgs MAX_FEE],
          result := .error e }
      | .ok mint_tx =>
        let ops3 := ops2 ++ [.contractInvoke "mint_medical_nft" mintArgs MAX_FEE]
        match env.waitMintRes with
        | .error e =>
          { ops := ops3 ++ [.waitForTx mint_tx.transaction_hash], result := .error e }
        | .ok _ =>
          let ops4 := ops3 ++
            [.waitForTx mint_tx.transaction_hash,
             .printLine ("✅ NFT minted! Transaction: " ++ hexStr mint_tx.transaction_hash)]
          match env.supply2Res with
          | .error e =>
            { ops := ops4 ++ [.contractCall "get_total_supply" []], result := .error e }
          | .ok total_supply2 =>
            let ops5 := ops4 ++
              [.contractCall "get_total_supply" [],
               .printLine ("📊 Total Supply after minting: " ++ toString total_supply2)]
            match env.metadataRes with
            | .error e =>
              { ops := ops5 ++ [.contractCall "get_token_metadata" [1]], result := .error e }
            | .ok metadata =>
              { ops := ops5 ++
                  [.contractCall "get_token_metadata" [1],
                   .printLine ("📋 Token Metadata: " ++ metadata)],
                result := .ok () }

/-- Python truthiness of `contract_address` in `if contract_address:`:
`None` is falsy, an int is truthy iff nonzero. -/
def pyTruthy : Option Nat → Bool
  | none => false
  | some a => a != 0

/-- Outcome of the `__main__` block: full operation trace, the explicit exit
code if `exit(1)` ran (`none` otherwise: the process falls off the end of the
script), and whether `test_contract` was invoked. -/
structure MainOut where
  ops : List Op
  exitCode : Option Nat
  ranTest : Bool
deriving DecidableEq

/-- The two printed lines of the top-level `except Exception` handler. -/
def catchPrints (e : PyExc) : List Op :=
  [.printLine ("❌ Deployment failed: " ++ e.msg),
   .printLine "Make sure you have enough ETH in your account for gas fees"]

/-- The `if __name__ == "__main__":` block of `src/contracts/deploy.py`,
translated statement by statement: placeholder check with `exit(1)`, then a
`try` running `deploy_contract()` and, if its return value is truthy,
`test_contract(...)`, with a single `except Exception` handler. -/
def main_run (cfg : Config) (denv : DeployEnv) (tenv : TestEnv) : MainOut :=
  let ops0 : List Op := [.printLine "=== Medical NFT Contract Deployment ===\n"]
  if cfg.account_address = ACCOUNT_ADDRESS_PLACEHOLDER ∨
      cfg.private_key = PRIVATE_KEY_PLACEHOLDER then
    { ops := ops0 ++
        [.printLine "❌ Please configure your account address and private key in the script",
         .printLine "You can get these from your Starknet wallet (ArgentX or Braavos)"],
      exitCode := some 1
      ranTest := false }
  else
    let d := deploy_contract denv
    match d.result with
    | .error e =>
      { ops := ops0 ++ d.ops ++ catchPrints e, exitCode := none, ranTest := false }
    | .ok contract_address =>
      if pyTruthy contract_address then
        let t := test_contract tenv
        match t.result with
        | .error e =>
          { ops := ops0 ++ d.ops ++ t.ops ++ catchPrints e, exitCode := none, ranTest := true }
        | .ok _ =>
          { ops := ops0 ++ d.ops ++ t.ops, exitCode := none, ranTest := true }
      else
        { ops := ops0 ++ d.ops, exitCode := none, ranTest := false }

/-- Is `op` a blockchain/network operation? -/
def Op.isNetwork : Op → Bool
  | .declare _ => true
  | .waitForTx _ => true
  | .invoke _ _ => true
  | .getReceipt _ => true
  | .contractCall _ _ => true
  | .contractInvoke _ _ _ => true
  | _ => false

/-- Is `op` a deploy-style invoke transaction submission? -/
def Op.isInvoke : Op → Bool
  | .invoke _ _ => true
  | _ => false

/-- The max-fee argument of `op`, when it submits a fee-bearing transaction. -/
def Op.fee : Op → Option Nat
  | .declare f => some f
  | .invoke _ f => some f
  | .contractInvoke _ _ f => some f
  | _ => none

/-- Is `op` a write to the filesystem? -/
def Op.isFileWrite : Op → Bool
  | .fileWrite _ _ => true
  | _ => false

def okDeclare : DeclareResult := { transaction_hash := 11, class_hash := 22 }

def okInvoke : InvokeResult := { transaction_hash := 33 }

def okReceipt : Receipt := { events := [{ from_address := 44 }] }

def okDeployEnv : DeployEnv :=
  { accountAddress := 5
    loadRes := .ok ()
    declareRes := .ok okDeclare
    waitDeclareRes := .ok ()
    invokeRes := .ok okInvoke
    waitDeployRes := .ok ()
    receiptRes := .ok okReceipt }

def okTestEnv : TestEnv :=
  { loadRes := .ok ()
    supply1Res := .ok 0
    mintRes := .ok { transaction_hash := 55 }
    waitMintRes := .ok ()
    supply2Res := .ok 1
    metadataRes := .ok "meta" }

def okConfig : Config := { account_address := "0x123", private_key := "0xabc" }

/-- A deploy environment in which the artifact file is missing. -/
def missingEnv : DeployEnv := { okDeployEnv with loadRes := .error .fileNotFound }

/-- A configuration still carrying the shipped placeholder account address. -/
def placeholderConfig : Config :=
  { account_address := ACCOUNT_ADDRESS_PLACEHOLDER, private_key := "0xabc" }

/-- A deploy environment whose declare transaction raises an SDK error. -/
def errDeployEnv : DeployEnv :=
  { okDeployEnv with declareRes := .error (.sdkError "insufficient funds") }

/-- A deploy environment whose deploy receipt carries no events. -/
def emptyEventsEnv : DeployEnv := { okDeployEnv with receiptRes := .ok { events := [] } }

/-- Does `op` carry the uniform fee ceiling whenever it carries a fee? -/
def Op.feeOk (op : Op) : Bool :=
  match op.fee with
  | none => true
  | some f => f == MAX_FEE


theorem deploy_ok_trace (env : DeployEnv) (dr : DeclareResult) (ir : InvokeResult)
    (rc : Receipt) (ev : Event) (evs : List Event)
    (hl : env.loadRes = .ok ()) (hd : env.declareRes = .ok dr)
    (hw1 : env.waitDeclareRes = .ok ()) (hi : env.invokeRes = .ok ir)
    (hw2 : env.waitDeployRes = .ok ()) (hr : env.receiptRes = .ok rc)
    (he : rc.events = ev :: evs) :
    deploy_contract env =
      { ops :=
          [.printLine "🏥 Starting Medical NFT Contract Deployment...",
           .printLine ("📱 Using account: " ++ hexStr env.accountAddress),
           .fileRead CONTRACT_COMPILED_PATH,
           .printLine "📄 Contract loaded successfully",
           .printLine "📤 Declaring contract...",
           .declare MAX_FEE,
           .waitForTx dr.transaction_hash,
           .printLine ("✅ Contract declared with class hash: " ++ hexStr dr.class_hash),
           .printLine "🚀 Deploying contract...",
           .invoke [{ to_addr := dr.class_hash, selector := "constructor", calldata := [] }] MAX_FEE,
           .waitForTx ir.transaction_hash,
           .getReceipt ir.transaction_hash,
           .printLine "🎉 Contract deployed successfully!",
           .printLine ("📍 Contract Address: " ++ hexStr ev.from_address),
           .printLine ("🔗 Transaction Hash: " ++ hexStr ir.transaction_hash),
           .printLine ("🏷️  Class Hash: " ++ hexStr dr.class_hash),
           .fileWrite "deployment_info.json"
             [("contract_address", hexStr ev.from_address),
              ("class_hash", hexStr dr.class_hash),
              ("transaction_hash", hexStr ir.transaction_hash),
              ("network", "starknet-sepolia")],
           .printLine "💾 Deployment info saved to deployment_info.json"],
        result := .ok (some ev.from_address) } := by
  simp [deploy_contract, hl, hd, hw1, hi, hw2, hr, he]

theorem deploy_feeOk (env : DeployEnv) : ∀ op ∈ (deploy_contract env).ops, op.feeOk = true := by
  unfold deploy_contract
  repeat' split
  all_goals simp [List.forall_mem_cons, List.forall_mem_append, Op.feeOk, Op.fee]

theorem test_feeOk (env : TestEnv) : ∀ op ∈ (test_contract env).ops, op.feeOk = true := by
  unfold test_contract
  repeat' split
  all_goals simp [List.forall_mem_cons, List.forall_mem_append, Op.feeOk, Op.fee]

theorem catch_feeOk (e : PyExc) : ∀ op ∈ catchPrints e, op.feeOk = true := by
  simp [catchPrints, Op.feeOk, Op.fee]

theorem main_feeOk (cfg : Config) (denv : DeployEnv) (tenv : TestEnv) :
    ∀ op ∈ (main_run cfg denv tenv).ops, op.feeOk = true := by
  have hd := deploy_feeOk denv
  have ht := test_feeOk tenv
  have hb : ∀ op ∈ [Op.printLine "=== Medical NFT Contract Deployment ===\n"],
      op.feeOk = true := by simp [Op.feeOk, Op.fee]
  unfold main_run
  split
  · simp [List.forall_mem_cons, Op.feeOk, Op.fee]
  · revert hd ht
    generalize deploy_contract denv = D
    generalize test_contract tenv = T
    obtain ⟨dops, dres⟩ := D
    obtain ⟨tops, tres⟩ := T
    intro hd ht
    dsimp only at hd ht ⊢
    cases dres with
    | error e =>
      dsimp only
      exact List.forall_mem_append.mpr ⟨List.forall_mem_append.mpr ⟨hb, hd⟩, catch_feeOk e⟩
    | ok ca =>
      dsimp only
      by_cases hpt : pyTruthy ca = true
      · rw [if_pos hpt]
        cases tres with
        | error e =>
          dsimp only
          exact List.forall_mem_append.mpr
            ⟨List.forall_mem_append.mpr ⟨List.forall_mem_append.mpr ⟨hb, hd⟩, ht⟩, catch_feeOk e⟩
        | ok u =>
          dsimp only
          exact List.forall_mem_append.mpr ⟨List.forall_mem_append.mpr ⟨hb, hd⟩, ht⟩
      · rw [if_neg hpt]
        exact List.forall_mem_append.mpr ⟨hb, hd⟩

theorem test_ok_trace (env : TestEnv) (mt : InvokeResult) (s1 s2 : Nat) (md : String)
    (hl : env.loadRes = .ok ()) (h1 : env.supply1Res = .ok s1)
    (hm : env.mintRes = .ok mt) (hw : env.waitMintRes = .ok ())
    (h2 : env.supply2Res = .ok s2) (hmd : env.metadataRes = .ok md) :
    test_contract env =
      { ops :=
          [.printLine "\n🧪 Testing deployed contract...",
           .fileRead CONTRACT_COMPILED_PATH,
           .contractCall "get_total_supply" [],
           .printLine ("📊 Total Supply: " ++ toString s1),
           .printLine "🏥 Minting test medical NFT...",
           .contractInvoke "mint_medical_nft" mintArgs MAX_FEE,
           .waitForTx mt.transaction_hash,
           .printLine ("✅ NFT minted! Transaction: " ++ hexStr mt.transaction_hash),
           .contractCall "get_total_supply" [],
           .printLine ("📊 Total Supply after minting: " ++ toString s2),
           .contractCall "get_token_metadata" [1],
           .printLine ("📋 Token Metadata: " ++ md)],
        result := .ok () } := by
  simp [test_contract, hl, h1, hm, hw, h2, hmd]

theorem main_mem_cases (cfg : Config) (denv : DeployEnv) (tenv : TestEnv) (op : Op)
    (h : op ∈ (main_run cfg denv tenv).ops) :
    op = .printLine "=== Medical NFT Contract Deployment ===\n" ∨
    op = .printLine "❌ Please configure your account address and private key in the script" ∨
    op = .printLine "You can get these from your Starknet wallet (ArgentX or Braavos)" ∨
    op ∈ (deploy_contract denv).ops ∨ op ∈ (test_contract tenv).ops ∨
    ∃ e : PyExc, op ∈ catchPrints e := by
  unfold main_run at h
  split at h
  · simp only [List.mem_append, List.mem_cons, List.not_mem_nil, or_false] at h
    tauto
  · revert h
    generalize deploy_contract denv = D
    generalize test_contract tenv = T
    obtain ⟨dops, dres⟩ := D
    obtain ⟨tops, tres⟩ := T
    intro h
    dsimp only at h ⊢
    cases dres with
    | error e =>
      dsimp only at h
      rw [List.mem_append, List.mem_append] at h
      rcases h with (h | h) | h
      · simp only [List.mem_cons, List.not_mem_nil, or_false] at h
        exact Or.inl h
      · exact Or.inr (Or.inr (Or.inr (Or.inl h)))
      · exact Or.inr (Or.inr (Or.inr (Or.inr (Or.inr ⟨e, h⟩))))
    | ok ca =>
      dsimp only at h
      by_cases hpt : pyTruthy ca = true
      · rw [if_pos hpt] at h
        cases tres with
        | error e =>
          dsimp only at h
          rw [List.mem_append, List.mem_append, List.mem_append] at h
          rcases h with ((h | h) | h) | h
          · simp only [List.mem_cons, List.not_mem_nil, or_false] at h
            exact Or.inl h
          · exact Or.inr (Or.inr (Or.inr (Or.inl h)))
          · exact Or.inr (Or.inr (Or.inr (Or.inr (Or.inl h))))
          · exact Or.inr (Or.inr (Or.inr (Or.inr (Or.inr ⟨e, h⟩))))
        | ok u =>
          dsimp only at h
          rw [List.mem_append, List.mem_append] at h
          rcases h with (h | h) | h
          · simp only [List.mem_cons, List.not_mem_nil, or_false] at h
            exact Or.inl h
          · exact Or.inr (Or.inr (Or.inr (Or.inl h)))
          · exact Or.inr (Or.inr (Or.inr (Or.inr (Or.inl h))))
      · rw [if_neg hpt] at h
        dsimp only at h
        rw [List.mem_append] at h
        rcases h with h | h
        · simp only [List.mem_cons, List.not_mem_nil, or_false] at h
          exact Or.inl h
        · exact Or.inr (Or.inr (Or.inr (Or.inl h)))

theorem deploy_write_shape (env : DeployEnv) (p : String) (c : List (String × String))
    (h : Op.fileWrite p c ∈ (deploy_contract env).ops) :
    p = "deployment_info.json" ∧
    c.map Prod.fst = ["contract_address", "class_hash", "transaction_hash", "network"] ∧
    ∃ a ch th : Nat,
      c = [("contract_address", hexStr a), ("class_hash", hexStr ch),
           ("transaction_hash", hexStr th), ("network", "starknet-sepolia")] := by
  unfold deploy_contract at h
  repeat' split at h
  all_goals simp_all [List.mem_append, List.mem_cons]

theorem test_no_write (env : TestEnv) (p : String) (c : List (String × String)) :
    Op.fileWrite p c ∉ (test_contract env).ops := by
  intro h
  unfold test_contract at h
  repeat' split at h
  all_goals simp_all [List.mem_append, List.mem_cons]

theorem deploy_read_path (env : DeployEnv) (p : String)
    (h : Op.fileRead p ∈ (deploy_contract env).ops) : p = CONTRACT_COMPILED_PATH := by
  unfold deploy_contract at h
  repeat' split at h
  all_goals simp_all [List.mem_append, List.mem_cons]

theorem test_read_path (env : TestEnv) (p : String)
    (h : Op.fileRead p ∈ (test_contract env).ops) : p = CONTRACT_COMPILED_PATH := by
  unfold test_contract at h
  repeat' split at h
  all_goals simp_all [List.mem_append, List.mem_cons]

theorem catch_no_file (e : PyExc) (op : Op) (h : op ∈ catchPrints e) :
    (∀ p c, op ≠ Op.fileWrite p c) ∧ ∀ p, op ≠ Op.fileRead p := by
  simp only [catchPrints, List.mem_cons, List.not_mem_nil, or_false] at h
  rcases h with rfl | rfl <;> simp

/-- C1: after the deploy transaction is confirmed, the script reads that
transaction's receipt and takes the deployed contract's address to be the
address carried by the first emitted event (index 0) of that receipt; this
value is what `deploy_contract` returns and records as `contract_address`. -/
theorem C1_address_from_first_event (env : DeployEnv) (dr : DeclareResult)
    (ir : InvokeResult) (rc : Receipt) (ev : Event) (evs : List Event)
    (hl : env.loadRes = .ok ()) (hd : env.declareRes = .ok dr)
    (hw1 : env.waitDeclareRes = .ok ()) (hi : env.invokeRes = .ok ir)
    (hw2 : env.waitDeployRes = .ok ()) (hr : env.receiptRes = .ok rc)
    (he : rc.events = ev :: evs) :
    (deploy_contract env).result = .ok (some ev.from_address) ∧
    Op.getReceipt ir.transaction_hash ∈ (deploy_contract env).ops ∧
    Op.fileWrite "deployment_info.json"
        [("contract_address", hexStr ev.from_address),
         ("class_hash", hexStr dr.class_hash),
         ("transaction_hash", hexStr ir.transaction_hash),
         ("network", "starknet-sepolia")] ∈ (deploy_contract env).ops := by
  rw [deploy_ok_trace env dr ir rc ev evs hl hd hw1 hi hw2 hr he]
  refine ⟨rfl, ?_, ?_⟩ <;> simp

theorem C1_witness :
    (deploy_contract okDeployEnv).result = .ok (some 44) ∧
    Op.getReceipt 33 ∈ (deploy_contract okDeployEnv).ops ∧
    Op.fileWrite "deployment_info.json"
        [("contract_address", hexStr 44),
         ("class_hash", hexStr 22),
         ("transaction_hash", hexStr 33),
         ("network", "starknet-sepolia")] ∈ (deploy_contract okDeployEnv).ops :=
  C1_address_from_first_event okDeployEnv okDeclare okInvoke okReceipt
    ⟨44⟩ [] rfl rfl rfl rfl rfl rfl rfl

/-- C2: the deploy step submits a single invoke transaction whose one call
targets the class hash returned by the declare step, uses the selector
`"constructor"`, and passes an empty calldata list. -/
theorem C2_single_constructor_invoke (env : DeployEnv) (dr : DeclareResult)
    (hd : env.declareRes = .ok dr) :
    ((deploy_contract env).ops.filter Op.isInvoke).length ≤ 1 ∧
    ∀ calls fee, Op.invoke calls fee ∈ (deploy_contract env).ops →
      calls = [{ to_addr := dr.class_hash, selector := "constructor", calldata := [] }] ∧
      fee = MAX_FEE := by
  unfold deploy_contract
  repeat' split
  all_goals simp_all [List.filter, Op.isInvoke, List.mem_append, List.mem_cons]

theorem C2_witness :
    ((deploy_contract okDeployEnv).ops.filter Op.isInvoke).length ≤ 1 ∧
    ∀ calls fee, Op.invoke calls fee ∈ (deploy_contract okDeployEnv).ops →
      calls = [{ to_addr := 22, selector := "constructor", calldata := [] }] ∧
      fee = MAX_FEE :=
  C2_single_constructor_invoke okDeployEnv okDeclare rfl

/-- C3: when the compiled-contract artifact file does not exist,
`deploy_contract` prints the file-not-found message and returns early
(`None`), performing no network operation and writing no summary file. -/
theorem C3_missing_artifact (env : DeployEnv)
    (h : env.loadRes = .error .fileNotFound) :
    (deploy_contract env).result = .ok none ∧
    Op.printLine ("❌ Contract file not found: " ++ CONTRACT_COMPILED_PATH)
      ∈ (deploy_contract env).ops ∧
    ∀ op ∈ (deploy_contract env).ops, op.isNetwork = false ∧ op.isFileWrite = false := by
  refine ⟨by simp [deploy_contract, h], by simp [deploy_contract, h], ?_⟩
  simp [deploy_contract, h, List.forall_mem_cons, Op.isNetwork, Op.isFileWrite]

theorem C3_witness :
    (deploy_contract missingEnv).result = .ok none ∧
    Op.printLine ("❌ Contract file not found: " ++ CONTRACT_COMPILED_PATH)
      ∈ (deploy_contract missingEnv).ops ∧
    ∀ op ∈ (deploy_contract missingEnv).ops, op.isNetwork = false ∧ op.isFileWrite = false :=
  C3_missing_artifact missingEnv rfl

/-- C4: when the account address or the private key still equals its
placeholder, the script prints the configuration warning and terminates with
exit status 1 before performing any deployment step. -/
theorem C4_placeholder_exit (cfg : Config) (denv : DeployEnv) (tenv : TestEnv)
    (h : cfg.account_address = ACCOUNT_ADDRESS_PLACEHOLDER ∨
      cfg.private_key = PRIVATE_KEY_PLACEHOLDER) :
    (main_run cfg denv tenv).exitCode = some 1 ∧
    Op.printLine "❌ Please configure your account address and private key in the script"
      ∈ (main_run cfg denv tenv).ops ∧
    (main_run cfg denv tenv).ranTest = false ∧
    ∀ op ∈ (main_run cfg denv tenv).ops,
      op.isNetwork = false ∧ op.isFileWrite = false ∧ ∀ q, op ≠ Op.fileRead q := by
  unfold main_run
  rw [if_pos h]
  refine ⟨rfl, by simp, rfl, ?_⟩
  simp [List.forall_mem_cons, Op.isNetwork, Op.isFileWrite]

theorem C4_witness :
    (main_run placeholderConfig okDeployEnv okTestEnv).exitCode = some 1 ∧
    Op.printLine "❌ Please configure your account address and private key in the script"
      ∈ (main_run placeholderConfig okDeployEnv okTestEnv).ops ∧
    (main_run placeholderConfig okDeployEnv okTestEnv).ranTest = false ∧
    ∀ op ∈ (main_run placeholderConfig okDeployEnv okTestEnv).ops,
      op.isNetwork = false ∧ op.isFileWrite = false ∧ ∀ q, op ≠ Op.fileRead q :=
  C4_placeholder_exit placeholderConfig okDeployEnv okTestEnv (Or.inl rfl)

/-- C5: whenever the deployment summary file is written, it is the file
`deployment_info.json` and its JSON object has exactly the four keys
`contract_address`, `class_hash`, `transaction_hash`, `network`, the first
three values hex-formatted strings and `network` the string
`"starknet-sepolia"`; the script never reads this file back (its only file
reads are of the artifact path). -/
theorem C5_summary_shape (cfg : Config) (denv : DeployEnv) (tenv : TestEnv) :
    (∀ p c, Op.fileWrite p c ∈ (main_run cfg denv tenv).ops →
        p = "deployment_info.json" ∧
        c.map Prod.fst = ["contract_address", "class_hash", "transaction_hash", "network"] ∧
        ∃ a ch th : Nat,
          c = [("contract_address", hexStr a), ("class_hash", hexStr ch),
               ("transaction_hash", hexStr th), ("network", "starknet-sepolia")]) ∧
    ∀ p, Op.fileRead p ∈ (main_run cfg denv tenv).ops → p = CONTRACT_COMPILED_PATH := by
  constructor
  · intro p c hmem
    rcases main_mem_cases cfg denv tenv _ hmem with h | h | h | h | h | ⟨e, h⟩
    · exact absurd h (by simp)
    · exact absurd h (by simp)
    · exact absurd h (by simp)
    · exact deploy_write_shape denv p c h
    · exact absurd h (test_no_write tenv p c)
    · exact absurd rfl ((catch_no_file e _ h).1 p c)
  · intro p hmem
    rcases main_mem_cases cfg denv tenv _ hmem with h | h | h | h | h | ⟨e, h⟩
    · exact absurd h (by simp)
    · exact absurd h (by simp)
    · exact absurd h (by simp)
    · exact deploy_read_path denv p h
    · exact test_read_path tenv p h
    · exact absurd rfl ((catch_no_file e _ h).2 p)

theorem C5_witness :
    Op.fileRead CONTRACT_COMPILED_PATH ∈ (main_run okConfig okDeployEnv okTestEnv).ops ∧
    CONTRACT_COMPILED_PATH = CONTRACT_COMPILED_PATH :=
  ⟨by decide,
   (C5_summary_shape okConfig okDeployEnv okTestEnv).2 CONTRACT_COMPILED_PATH (by decide)⟩

/-- C6: any exception raised during deployment or the smoke test (beyond the
two explicitly checked conditions) is caught by the single top-level handler,
which prints the error text and the generic gas-funds hint; the process then
ends with no exit-code setting beyond the early `exit(1)`. -/
theorem C6_catch_all (cfg : Config) (denv : DeployEnv) (tenv : TestEnv)
    (hcfg : ¬(cfg.account_address = ACCOUNT_ADDRESS_PLACEHOLDER ∨
      cfg.private_key = PRIVATE_KEY_PLACEHOLDER)) :
    (∀ e, (deploy_contract denv).result = .error e →
        main_run cfg denv tenv =
          { ops := [.printLine "=== Medical NFT Contract Deployment ===\n"] ++
              (deploy_contract denv).ops ++ catchPrints e,
            exitCode := none, ranTest := false }) ∧
    ∀ e a, (deploy_contract denv).result = .ok (some a) → a ≠ 0 →
        (test_contract tenv).result = .error e →
        main_run cfg denv tenv =
          { ops := [.printLine "=== Medical NFT Contract Deployment ===\n"] ++
              (deploy_contract denv).ops ++ (test_contract tenv).ops ++ catchPrints e,
            exitCode := none, ranTest := true } := by
  constructor
  · intro e he
    unfold main_run
    rw [if_neg hcfg]
    dsimp only
    rw [he]
  · intro e a ha hnz hte
    unfold main_run
    rw [if_neg hcfg]
    dsimp only
    rw [ha]
    dsimp only
    have hpt : pyTruthy (some a) = true := by simp [pyTruthy, hnz]
    rw [if_pos hpt, hte]

theorem C6_witness :
    main_run okConfig errDeployEnv okTestEnv =
      { ops := [.printLine "=== Medical NFT Contract Deployment ===\n"] ++
          (deploy_contract errDeployEnv).ops ++ catchPrints (.sdkError "insufficient funds"),
        exitCode := none, ranTest := false } :=
  (C6_catch_all okConfig errDeployEnv okTestEnv (by decide)).1 (.sdkError "insufficient funds") rfl

/-- C7: the blockchain operations of a full successful run occur strictly
sequentially in the order declare, wait for declare, deploy invoke, wait for
deploy, fetch receipt, read total supply, mint, wait for mint, re-read total
supply, read metadata for token id 1 — and nothing else. -/
theorem C7_sequential_network_ops (cfg : Config) (denv : DeployEnv) (tenv : TestEnv)
    (dr : DeclareResult) (ir : InvokeResult) (rc : Receipt) (ev : Event) (evs : List Event)
    (mt : InvokeResult) (s1 s2 : Nat) (md : String)
    (hcfg : ¬(cfg.account_address = ACCOUNT_ADDRESS_PLACEHOLDER ∨
      cfg.private_key = PRIVATE_KEY_PLACEHOLDER))
    (hl : denv.loadRes = .ok ()) (hd : denv.declareRes = .ok dr)
    (hw1 : denv.waitDeclareRes = .ok ()) (hi : denv.invokeRes = .ok ir)
    (hw2 : denv.waitDeployRes = .ok ()) (hr : denv.receiptRes = .ok rc)
    (he : rc.events = ev :: evs) (hnz : ev.from_address ≠ 0)
    (tl : tenv.loadRes = .ok ()) (t1 : tenv.supply1Res = .ok s1)
    (tm : tenv.mintRes = .ok mt) (tw : tenv.waitMintRes = .ok ())
    (t2 : tenv.supply2Res = .ok s2) (tmd : tenv.metadataRes = .ok md) :
    (main_run cfg denv tenv).ops.filter Op.isNetwork =
      [.declare MAX_FEE,
       .waitForTx dr.transaction_hash,
       .invoke [{ to_addr := dr.class_hash, selector := "constructor", calldata := [] }] MAX_FEE,
       .waitForTx ir.transaction_hash,
       .getReceipt ir.transaction_hash,
       .contractCall "get_total_supply" [],
       .contractInvoke "mint_medical_nft" mintArgs MAX_FEE,
       .waitForTx mt.transaction_hash,
       .contractCall "get_total_supply" [],
       .contractCall "get_token_metadata" [1]] := by
  unfold main_run
  rw [if_neg hcfg]
  dsimp only
  rw [deploy_ok_trace denv dr ir rc ev evs hl hd hw1 hi hw2 hr he,
    test_ok_trace tenv mt s1 s2 md tl t1 tm tw t2 tmd]
  dsimp only
  have hpt : pyTruthy (some ev.from_address) = true := by simp [pyTruthy, hnz]
  rw [if_pos hpt]
  simp [Op.isNetwork, List.filter]

theorem C7_witness :
    (main_run okConfig okDeployEnv okTestEnv).ops.filter Op.isNetwork =
      [.declare MAX_FEE,
       .waitForTx 11,
       .invoke [{ to_addr := 22, selector := "constructor", calldata := [] }] MAX_FEE,
       .waitForTx 33,
       .getReceipt 33,
       .contractCall "get_total_supply" [],
       .contractInvoke "mint_medical_nft" mintArgs MAX_FEE,
       .waitForTx 55,
       .contractCall "get_total_supply" [],
       .contractCall "get_token_metadata" [1]] :=
  C7_sequential_network_ops okConfig okDeployEnv okTestEnv okDeclare okInvoke okReceipt
    ⟨44⟩ [] ⟨55⟩ 0 1 "meta" (by decide) rfl rfl rfl rfl rfl rfl rfl (by decide)
    rfl rfl rfl rfl rfl rfl

/-- C8: every fee-bearing transaction the script submits (declare, deploy
invoke, smoke-test mint) uses the same fixed maximum-fee ceiling of exactly
10^16. -/
theorem C8_uniform_max_fee (cfg : Config) (denv : DeployEnv) (tenv : TestEnv) :
    ∀ op ∈ (main_run cfg denv tenv).ops, ∀ f, op.fee = some f → f = 10 ^ 16 := by
  intro op hop f hf
  have hok := main_feeOk cfg denv tenv op hop
  rw [Op.feeOk, hf] at hok
  simpa [MAX_FEE] using hok

theorem C8_witness :
    Op.declare MAX_FEE ∈ (main_run okConfig okDeployEnv okTestEnv).ops ∧
    MAX_FEE = 10 ^ 16 :=
  ⟨by decide,
   C8_uniform_max_fee okConfig okDeployEnv okTestEnv (Op.declare MAX_FEE) (by decide) MAX_FEE rfl⟩

/-- C9: the address extraction indexes the receipt's event list at position 0
with no emptiness check: with an empty event list `deploy_contract` raises an
IndexError instead of returning, writes no summary, and the error reaches the
top-level catch-all handler. -/
theorem C9_empty_events_raises (env : DeployEnv) (dr : DeclareResult)
    (ir : InvokeResult) (rc : Receipt)
    (hl : env.loadRes = .ok ()) (hd : env.declareRes = .ok dr)
    (hw1 : env.waitDeclareRes = .ok ()) (hi : env.invokeRes = .ok ir)
    (hw2 : env.waitDeployRes = .ok ()) (hr : env.receiptRes = .ok rc)
    (he : rc.events = []) :
    (deploy_contract env).result = .error .indexError ∧
    (∀ p c, Op.fileWrite p c ∉ (deploy_contract env).ops) ∧
    ∀ cfg tenv, ¬(cfg.account_address = ACCOUNT_ADDRESS_PLACEHOLDER ∨
        cfg.private_key = PRIVATE_KEY_PLACEHOLDER) →
      (main_run cfg env tenv).ranTest = false ∧
      Op.printLine ("❌ Deployment failed: " ++ PyExc.msg .indexError)
        ∈ (main_run cfg env tenv).ops := by
  have htrace : (deploy_contract env).result = .error .indexError := by
    simp [deploy_contract, hl, hd, hw1, hi, hw2, hr, he]
  refine ⟨htrace, ?_, ?_⟩
  · intro p c hmem
    unfold deploy_contract at hmem
    simp only [hl, hd, hw1, hi, hw2, hr, he] at hmem
    simp [List.mem_append, List.mem_cons] at hmem
  · intro cfg tenv hcfg
    unfold main_run
    rw [if_neg hcfg]
    dsimp only
    rw [htrace]
    dsimp only
    constructor
    · rfl
    · simp [catchPrints]

theorem C9_witness :
    (deploy_contract emptyEventsEnv).result = .error .indexError ∧
    (∀ p c, Op.fileWrite p c ∉ (deploy_contract emptyEventsEnv).ops) ∧
    ∀ cfg tenv, ¬(cfg.account_address = ACCOUNT_ADDRESS_PLACEHOLDER ∨
        cfg.private_key = PRIVATE_KEY_PLACEHOLDER) →
      (main_run cfg emptyEventsEnv tenv).ranTest = false ∧
      Op.printLine ("❌ Deployment failed: " ++ PyExc.msg .indexError)
        ∈ (main_run cfg emptyEventsEnv tenv).ops :=
  C9_empty_events_raises emptyEventsEnv okDeclare okInvoke ⟨[]⟩ rfl rfl rfl rfl rfl rfl rfl

theorem main_ranTest_iff (cfg : Config) (denv : DeployEnv) (tenv : TestEnv)
    (hcfg : ¬(cfg.account_address = ACCOUNT_ADDRESS_PLACEHOLDER ∨
      cfg.private_key = PRIVATE_KEY_PLACEHOLDER)) :
    (main_run cfg denv tenv).ranTest = true ↔
      ∃ a, (deploy_contract denv).result = .ok (some a) ∧ a ≠ 0 := by
  unfold main_run
  rw [if_neg hcfg]
  dsimp only
  generalize deploy_contract denv = D
  generalize test_contract tenv = T
  obtain ⟨dops, dres⟩ := D
  obtain ⟨tops, tres⟩ := T
  dsimp only
  cases dres with
  | error e => simp
  | ok ca =>
    dsimp only
    by_cases hpt : pyTruthy ca = true
    · rw [if_pos hpt]
      have hex : ∃ a, ca = some a ∧ ¬a = 0 := by
        cases ca with
        | none => simp [pyTruthy] at hpt
        | some a => exact ⟨a, rfl, by simpa [pyTruthy] using hpt⟩
      cases tres <;> (dsimp only; simp [hex])
    · rw [if_neg hpt]
      dsimp only
      constructor
      · intro hfalse
        exact absurd hfalse (by simp)
      · rintro ⟨a, hca, ha⟩
        injection hca with hca
        subst hca
        exact (hpt (by simp [pyTruthy, ha])).elim

/-- C10: the smoke test runs if and only if `deploy_contract` returns a
truthy value; a missing artifact (return `None`) skips it, and a deployed
address equal to 0 also silently skips it. -/
theorem C10_test_iff_truthy (cfg : Config) (denv : DeployEnv) (tenv : TestEnv)
    (hcfg : ¬(cfg.account_address = ACCOUNT_ADDRESS_PLACEHOLDER ∨
      cfg.private_key = PRIVATE_KEY_PLACEHOLDER)) :
    ((main_run cfg denv tenv).ranTest = true ↔
      ∃ a, (deploy_contract denv).result = .ok (some a) ∧ a ≠ 0) ∧
    (denv.loadRes = .error .fileNotFound → (main_run cfg denv tenv).ranTest = false) ∧
    ((deploy_contract denv).result = .ok (some 0) →
      (main_run cfg denv tenv).ranTest = false) := by
  have hiff := main_ranTest_iff cfg denv tenv hcfg
  refine ⟨hiff, ?_, ?_⟩
  · intro hfnf
    cases hrt : (main_run cfg denv tenv).ranTest
    · rfl
    · obtain ⟨a, hres, ha⟩ := hiff.mp hrt
      have hnone : (deploy_contract denv).result = .ok none := by
        simp [deploy_contract, hfnf]
      rw [hnone] at hres
      exact absurd hres (by simp)
  · intro h0
    cases hrt : (main_run cfg denv tenv).ranTest
    · rfl
    · obtain ⟨a, hres, ha⟩ := hiff.mp hrt
      rw [h0] at hres
      injection hres with hres
      injection hres with hres
      exact (ha hres.symm).elim

theorem C10_witness :
    ((main_run okConfig okDeployEnv okTestEnv).ranTest = true ↔
      ∃ a, (deploy_contract okDeployEnv).result = .ok (some a) ∧ a ≠ 0) ∧
    (okDeployEnv.loadRes = .error .fileNotFound →
      (main_run okConfig okDeployEnv okTestEnv).ranTest = false) ∧
    ((deploy_contract okDeployEnv).result = .ok (some 0) →
      (main_run okConfig okDeployEnv okTestEnv).ranTest = false) :=
  C10_test_iff_truthy okConfig okDeployEnv okTestEnv (by decide)
